import Mathlib

/-!
Shallow embedding of the SailBot 2021 servo wrapper (`SB_Servo.hpp` /
`SB_Servo.cpp`).  C `float` arithmetic is modelled over `ℚ`; the C cast
`(int) x` of a floating value is truncation toward zero; the implicit
conversion of an `int` to `uint16_t` is reduction modulo `2^16`.  Gateway
traffic (the Pololu Mini Maestro driver) is recorded as an explicit list of
calls; `maestro.getPosition` responses enter as an extra parameter.  Debug
traces from `setMultipleTargets` are recorded as the list of servo numbers
of the units that were traced.
-/

namespace SBServo

/-- Truncation toward zero, the semantics of the C cast `(int) x` for a
floating-point `x` whose value fits in `int`. -/
def cIntCast (q : ℚ) : ℤ := if 0 ≤ q then ⌊q⌋ else ⌈q⌉

/-- Error bit `US_ERROR_BIT 0x01` from `SB_Servo.hpp`. -/
def US_ERROR_BIT : ℕ := 0x01

/-- Error bit `RANGE_ERROR_BIT 0x02` from `SB_Servo.hpp`. -/
def RANGE_ERROR_BIT : ℕ := 0x02

/-- Error bit `ANGLE_ERROR_BIT 0x04` from `SB_Servo.hpp`. -/
def ANGLE_ERROR_BIT : ℕ := 0x04

/-- Error bit `CHANNEL_ERROR_BIT 0x08` from `SB_Servo.hpp`. -/
def CHANNEL_ERROR_BIT : ℕ := 0x08

/-- Error bit `ROTATE_TO_UNDER_ERROR_BIT 0x10` from `SB_Servo.hpp`. -/
def ROTATE_TO_UNDER_ERROR_BIT : ℕ := 0x10

/-- Error bit `ROTATE_TO_OVER_ERROR_BIT 0x20` from `SB_Servo.hpp`. -/
def ROTATE_TO_OVER_ERROR_BIT : ℕ := 0x20

/-- Default minimum pulse width (`DEFAULT_MIN_US 500`). -/
def DEFAULT_MIN_US : ℤ := 500

/-- Default maximum pulse width (`DEFAULT_MAX_US 2500`). -/
def DEFAULT_MAX_US : ℤ := 2500

/-- Default minimum angle (`DEFAULT_MIN_ANGLE 0`). -/
def DEFAULT_MIN_ANGLE : ℚ := 0

/-- Default maximum angle (`DEFAULT_MAX_ANGLE 180`). -/
def DEFAULT_MAX_ANGLE : ℚ := 180

/-- Channel count of the controller (`NUM_MAESTRO_CHANNELS 8`). -/
def NUM_MAESTRO_CHANNELS : ℤ := 8

/-- The per-instance state of one `SB_Servo` object: the stored (already
×4-scaled) pulse bounds, the manufacturer degree range, the safe angle
window, the channel, the diagnostic servo number and the error mask. -/
structure ServoState where
  minUS : ℤ
  maxUS : ℤ
  minDegreeRange : ℚ
  maxDegreeRange : ℚ
  minAngle : ℚ
  maxAngle : ℚ
  channelNum : ℤ
  servoNumber : ℤ
  errorCode : ℕ
deriving DecidableEq

/-- One call on the shared `MiniMaestro` gateway. -/
inductive MaestroCall where
  | setTarget (channel : ℤ) (target : ℤ)
  | getPosition (channel : ℤ)
  | setMultiTarget (count : ℕ) (firstChannel : ℤ) (targets : List ℕ)
deriving DecidableEq

/-- `SB_Servo::degToUS`: point-slope conversion of a degree value into a
Maestro pulse-width value, truncated to `int` on return. -/
def degToUS (s : ServoState) (degree : ℚ) : ℤ :=
  cIntCast ((((s.maxUS : ℚ) - (s.minUS : ℚ)) / s.maxDegreeRange) * degree + (s.minUS : ℚ))

/-- `SB_Servo::usToDegrees`: conversion of a Maestro pulse-width value into
degrees. -/
def usToDegrees (s : ServoState) (us : ℤ) : ℚ :=
  (s.maxDegreeRange / ((s.maxUS : ℚ) - (s.minUS : ℚ))) * ((us : ℚ) - (s.minUS : ℚ)) + s.minDegreeRange

/-- `SB_Servo::checkMinUS`: sets `US_ERROR_BIT` when `minUS < 0 || minUS > maxUS`. -/
def checkMinUS (s : ServoState) : ServoState :=
  if s.minUS < 0 ∨ s.minUS > s.maxUS then
    { s with errorCode := s.errorCode ||| US_ERROR_BIT }
  else s

/-- `SB_Servo::checkMaxUS`: sets `US_ERROR_BIT` when `maxUS < 0 || maxUS <= minUS`. -/
def checkMaxUS (s : ServoState) : ServoState :=
  if s.maxUS < 0 ∨ s.maxUS ≤ s.minUS then
    { s with errorCode := s.errorCode ||| US_ERROR_BIT }
  else s

/-- `SB_Servo::checkMinDegreeRange`: sets `RANGE_ERROR_BIT` when
`minDegreeRange < 0 || minDegreeRange > maxDegreeRange`. -/
def checkMinDegreeRange (s : ServoState) : ServoState :=
  if s.minDegreeRange < 0 ∨ s.minDegreeRange > s.maxDegreeRange then
    { s with errorCode := s.errorCode ||| RANGE_ERROR_BIT }
  else s

/-- `SB_Servo::checkMaxDegreeRange`: sets `RANGE_ERROR_BIT` when
`maxDegreeRange > 360 || maxDegreeRange < minDegreeRange`. -/
def checkMaxDegreeRange (s : ServoState) : ServoState :=
  if s.maxDegreeRange > 360 ∨ s.maxDegreeRange < s.minDegreeRange then
    { s with errorCode := s.errorCode ||| RANGE_ERROR_BIT }
  else s

/-- `SB_Servo::checkMinAngle`: sets `ANGLE_ERROR_BIT` when
`minAngle < 0 || minAngle > maxAngle || minAngle < minDegreeRange`. -/
def checkMinAngle (s : ServoState) : ServoState :=
  if s.minAngle < 0 ∨ s.minAngle > s.maxAngle ∨ s.minAngle < s.minDegreeRange then
    { s with errorCode := s.errorCode ||| ANGLE_ERROR_BIT }
  else s

/-- `SB_Servo::checkMaxAngle`: sets `ANGLE_ERROR_BIT` when
`maxAngle < 0 || maxAngle < minAngle || maxAngle > maxDegreeRange`. -/
def checkMaxAngle (s : ServoState) : ServoState :=
  if s.maxAngle < 0 ∨ s.maxAngle < s.minAngle ∨ s.maxAngle > s.maxDegreeRange then
    { s with errorCode := s.errorCode ||| ANGLE_ERROR_BIT }
  else s

/-- `SB_Servo::checkChannel`: sets `CHANNEL_ERROR_BIT` when
`channelNum < 0 || channelNum >= NUM_MAESTRO_CHANNELS`. -/
def checkChannel (s : ServoState) : ServoState :=
  if s.channelNum < 0 ∨ s.channelNum ≥ NUM_MAESTRO_CHANNELS then
    { s with errorCode := s.errorCode ||| CHANNEL_ERROR_BIT }
  else s

/-- The seven validation calls the full constructor body makes, in source
order. -/
def runChecks (s : ServoState) : ServoState :=
  checkChannel (checkMaxAngle (checkMinAngle (checkMaxDegreeRange
    (checkMinDegreeRange (checkMaxUS (checkMinUS s))))))

/-- The full seven-argument constructor
`SB_Servo(int, int, float, float, float, float, int)`: stores the pulse
bounds scaled ×4 (Maestro resolution), the ranges, angles and channel,
takes the next `servoCount` value as `servoNumber`, starts the error mask
at `0` and runs the seven checks. -/
def mkServo (minimumUS maximumUS : ℤ)
    (minimumRange maximumRange minimumAngle maximumAngle : ℚ)
    (channel servoNumber : ℤ) : ServoState :=
  runChecks
    { minUS := 4 * minimumUS
      maxUS := 4 * maximumUS
      minDegreeRange := minimumRange
      maxDegreeRange := maximumRange
      minAngle := minimumAngle
      maxAngle := maximumAngle
      channelNum := channel
      servoNumber := servoNumber
      errorCode := 0 }

/-- The three-argument constructor `SB_Servo(int minUS, int maxUS, int channel)`
as implemented in `SB_Servo.cpp`: forwards its first two arguments as the
pulse bounds and fills both the range and the angle window with the default
angle constants. -/
def mkServoMinMaxUS (minUS maxUS channel servoNumber : ℤ) : ServoState :=
  mkServo minUS maxUS DEFAULT_MIN_ANGLE DEFAULT_MAX_ANGLE
    DEFAULT_MIN_ANGLE DEFAULT_MAX_ANGLE channel servoNumber

/-- The one-argument constructor `SB_Servo(int channel)`: delegates with the
default pulse bounds. -/
def mkServoChannel (channel servoNumber : ℤ) : ServoState :=
  mkServoMinMaxUS DEFAULT_MIN_US DEFAULT_MAX_US channel servoNumber

/-- `SB_Servo::rotateToDegrees`: clamp into the angle window (setting the
over/under bits), convert, re-run `checkChannel`, and either abort with no
gateway call (channel error bit set) or issue one `setTarget`. -/
def rotateToDegrees (s : ServoState) (degree : ℚ) : ServoState × List MaestroCall :=
  let step :=
    if degree > s.maxAngle then
      (s.maxAngle, { s with errorCode := s.errorCode ||| ROTATE_TO_OVER_ERROR_BIT })
    else if degree < s.minAngle then
      (s.minAngle, { s with errorCode := s.errorCode ||| ROTATE_TO_UNDER_ERROR_BIT })
    else (degree, s)
  let usToWrite := degToUS step.2 step.1
  let s2 := checkChannel step.2
  if s2.errorCode &&& CHANNEL_ERROR_BIT ≠ 0 then (s2, [])
  else (s2, [MaestroCall.setTarget s2.channelNum usToWrite])

/-- `SB_Servo::getCurrentDegrees`: with the channel error bit set, return the
`-1` sentinel and make no gateway call; otherwise query `getPosition`
(whose response is the parameter `pos`) and convert. -/
def getCurrentDegrees (s : ServoState) (pos : ℤ) : ServoState × ℚ × List MaestroCall :=
  if s.errorCode &&& CHANNEL_ERROR_BIT ≠ 0 then (s, -1, [])
  else (s, usToDegrees s pos, [MaestroCall.getPosition s.channelNum])

/-- `SB_Servo::rotateBy`: read the current degrees, truncate
`current + 0.5` to `int`, add the delta and delegate to `rotateToDegrees`. -/
def rotateBy (s : ServoState) (degreesBy : ℚ) (pos : ℤ) : ServoState × List MaestroCall :=
  let r := getCurrentDegrees s pos
  let currentDeg : ℤ := cIntCast (r.2.1 + 1/2)
  let desiredAngle : ℚ := (currentDeg : ℚ) + degreesBy
  let r2 := rotateToDegrees r.1 desiredAngle
  (r2.1, r.2.2 ++ r2.2)

/-- `SB_Servo::getErrorCode`. -/
def getErrorCode (s : ServoState) : ℕ := s.errorCode

/-- `SB_Servo::clearErrorCode`: resets the mask to `0`. -/
def clearErrorCode (s : ServoState) : ServoState :=
  { s with errorCode := 0 }

/-- The C conversion of an `int` to `uint16_t`: reduction modulo `2^16`. -/
def toUInt16 (v : ℤ) : ℕ := (v % 65536).toNat

/-- The discontinuity traces produced by the contiguity loop of
`setMultipleTargets`: for each adjacent pair whose channels are not
consecutive, the servo number of the earlier unit is traced. -/
def traceList : List ServoState → List ℤ
  | a :: b :: rest =>
      (if a.channelNum + 1 ≠ b.channelNum then [a.servoNumber] else []) ++
        traceList (b :: rest)
  | _ => []

/-- The contiguity loop `for (i = 0; i < servos.size() - 1; i++)`.  Because
`servos.size()` is unsigned, an empty vector underflows the bound and the
first iteration reads `servos[0]` out of bounds, modelled as `none`. -/
def contigScan (servos : List ServoState) : Option (List ℤ) :=
  match servos with
  | [] => none
  | _ :: _ => some (traceList servos)

/-- The target-building loop `targets[i] = servos[i].degToUS(degrees[i])`
over `i < degrees.size()`: reading `servos[i]` past the end of the vector
or writing `targets[i]` with `i ≥ NUM_MAESTRO_CHANNELS` is out of bounds,
modelled as `none`; `i` is the index of the entry being built. -/
def buildTargets : List ServoState → List ℚ → ℕ → Option (List ℕ)
  | _, [], _ => some []
  | [], _ :: _, _ => none
  | s :: ss, d :: ds, i =>
      if i < 8 then
        match buildTargets ss ds (i + 1) with
        | some rest => some (toUInt16 (degToUS s d) :: rest)
        | none => none
      else none

/-- `SB_Servo::setMultipleTargets`: run the contiguity scan, build the
target array through each unit's own calibration, and issue one
`setMultiTarget(servos.size(), servos[0].channelNum, targets)` call;
`none` exactly when some array access was out of bounds. -/
def setMultipleTargets (servos : List ServoState) (degrees : List ℚ) :
    Option (List ℤ × MaestroCall) :=
  match contigScan servos, buildTargets servos degrees 0, servos.head? with
  | some traces, some targets, some s0 =>
      some (traces, MaestroCall.setMultiTarget servos.length s0.channelNum targets)
  | _, _, _ => none

/-- A unit built through the full constructor with the HS-422 defaults
`(500, 2500, 0, 180, 0, 180)` on channel `0`. -/
def exampleDefaultServo : ServoState := mkServo 500 2500 0 180 0 180 0 0

/-- A unit whose calibration passes every constructor check but whose
manufacturer range starts at `90`, not `0`. -/
def exampleShiftedRange : ServoState :=
  { minUS := 2000, maxUS := 10000, minDegreeRange := 90, maxDegreeRange := 180,
    minAngle := 90, maxAngle := 180, channelNum := 0, servoNumber := 0, errorCode := 0 }

/-- A unit whose safe-angle window is inverted (`minAngle > maxAngle`). -/
def exampleInvertedWindow : ServoState :=
  { minUS := 2000, maxUS := 10000, minDegreeRange := 0, maxDegreeRange := 180,
    minAngle := 10, maxAngle := 5, channelNum := 0, servoNumber := 0, errorCode := 0 }

/-- A unit on the invalid channel `9` whose error mask has been cleared
(the state reached by `SB_Servo(..., 9)` followed by `clearErrorCode()`). -/
def exampleClearedBadChannel : ServoState :=
  { minUS := 2000, maxUS := 10000, minDegreeRange := 0, maxDegreeRange := 180,
    minAngle := 0, maxAngle := 180, channelNum := 9, servoNumber := 0, errorCode := 0 }

/-- A valid unit whose error mask already carries the range bit. -/
def exampleMaskedServo : ServoState :=
  { minUS := 2000, maxUS := 10000, minDegreeRange := 0, maxDegreeRange := 180,
    minAngle := 0, maxAngle := 180, channelNum := 0, servoNumber := 0, errorCode := 2 }

/-- Three valid units on the non-contiguous channels `2`, `4`, `5`. -/
def exampleFleet : List ServoState :=
  [{ minUS := 2000, maxUS := 10000, minDegreeRange := 0, maxDegreeRange := 180,
     minAngle := 0, maxAngle := 180, channelNum := 2, servoNumber := 0, errorCode := 0 },
   { minUS := 2000, maxUS := 10000, minDegreeRange := 0, maxDegreeRange := 180,
     minAngle := 0, maxAngle := 180, channelNum := 4, servoNumber := 1, errorCode := 0 },
   { minUS := 2000, maxUS := 10000, minDegreeRange := 0, maxDegreeRange := 180,
     minAngle := 0, maxAngle := 180, channelNum := 5, servoNumber := 2, errorCode := 0 }]

/-- The angles sent to `exampleFleet`. -/
def exampleAngles : List ℚ := [0, 90, 180]

/-! Helper lemmas on bit masks and on the validation checks. -/

lemma testBit_lor_left {x : ℕ} (y i : ℕ) (h : x.testBit i = true) :
    (x ||| y).testBit i = true := by
  simp [Nat.testBit_lor, h]

lemma testBit_lor_right {y : ℕ} (x i : ℕ) (h : y.testBit i = true) :
    (x ||| y).testBit i = true := by
  simp [Nat.testBit_lor, h]

lemma and_ne_zero_of_testBit {n m : ℕ} (i : ℕ) (hn : n.testBit i = true)
    (hm : m.testBit i = true) : n &&& m ≠ 0 := by
  intro hc
  have h2 := congrArg (fun k => Nat.testBit k i) hc
  simp [Nat.testBit_land, hn, hm] at h2

lemma lor_and_of_and_zero (x b m : ℕ) (h : b &&& m = 0) :
    (x ||| b) &&& m = x &&& m := by
  apply Nat.eq_of_testBit_eq
  intro i
  have h2 := congrArg (fun k => Nat.testBit k i) h
  simp only [Nat.testBit_land, Nat.testBit_lor, Nat.zero_testBit] at h2 ⊢
  cases hb : b.testBit i <;> cases hm : m.testBit i <;> simp_all

lemma channel_bit_of_lor (x : ℕ) :
    (x ||| CHANNEL_ERROR_BIT) &&& CHANNEL_ERROR_BIT ≠ 0 :=
  and_ne_zero_of_testBit 3 (testBit_lor_right x 3 (by decide)) (by decide)

lemma checkMinUS_def (s : ServoState) :
    checkMinUS s = { s with errorCode := s.errorCode |||
      (if s.minUS < 0 ∨ s.minUS > s.maxUS then US_ERROR_BIT else 0) } := by
  unfold checkMinUS
  split
  · rfl
  · simp

lemma checkMaxUS_def (s : ServoState) :
    checkMaxUS s = { s with errorCode := s.errorCode |||
      (if s.maxUS < 0 ∨ s.maxUS ≤ s.minUS then US_ERROR_BIT else 0) } := by
  unfold checkMaxUS
  split
  · rfl
  · simp

lemma checkMinDegreeRange_def (s : ServoState) :
    checkMinDegreeRange s = { s with errorCode := s.errorCode |||
      (if s.minDegreeRange < 0 ∨ s.minDegreeRange > s.maxDegreeRange then RANGE_ERROR_BIT else 0) } := by
  unfold checkMinDegreeRange
  split
  · rfl
  · simp

lemma checkMaxDegreeRange_def (s : ServoState) :
    checkMaxDegreeRange s = { s with errorCode := s.errorCode |||
      (if s.maxDegreeRange > 360 ∨ s.maxDegreeRange < s.minDegreeRange then RANGE_ERROR_BIT else 0) } := by
  unfold checkMaxDegreeRange
  split
  · rfl
  · simp

lemma checkMinAngle_def (s : ServoState) :
    checkMinAngle s = { s with errorCode := s.errorCode |||
      (if s.minAngle < 0 ∨ s.minAngle > s.maxAngle ∨ s.minAngle < s.minDegreeRange then ANGLE_ERROR_BIT else 0) } := by
  unfold checkMinAngle
  split
  · rfl
  · simp

lemma checkMaxAngle_def (s : ServoState) :
    checkMaxAngle s = { s with errorCode := s.errorCode |||
      (if s.maxAngle < 0 ∨ s.maxAngle < s.minAngle ∨ s.maxAngle > s.maxDegreeRange then ANGLE_ERROR_BIT else 0) } := by
  unfold checkMaxAngle
  split
  · rfl
  · simp

lemma checkChannel_def (s : ServoState) :
    checkChannel s = { s with errorCode := s.errorCode |||
      (if s.channelNum < 0 ∨ s.channelNum ≥ NUM_MAESTRO_CHANNELS then CHANNEL_ERROR_BIT else 0) } := by
  unfold checkChannel
  split
  · rfl
  · simp

/-- The error mask after the seven constructor checks, as one expression
over the stored fields. -/
lemma runChecks_errorCode (s : ServoState) :
    (runChecks s).errorCode = ((((((s.errorCode |||
      (if s.minUS < 0 ∨ s.minUS > s.maxUS then US_ERROR_BIT else 0)) |||
      (if s.maxUS < 0 ∨ s.maxUS ≤ s.minUS then US_ERROR_BIT else 0)) |||
      (if s.minDegreeRange < 0 ∨ s.minDegreeRange > s.maxDegreeRange then RANGE_ERROR_BIT else 0)) |||
      (if s.maxDegreeRange > 360 ∨ s.maxDegreeRange < s.minDegreeRange then RANGE_ERROR_BIT else 0)) |||
      (if s.minAngle < 0 ∨ s.minAngle > s.maxAngle ∨ s.minAngle < s.minDegreeRange then ANGLE_ERROR_BIT else 0)) |||
      (if s.maxAngle < 0 ∨ s.maxAngle < s.minAngle ∨ s.maxAngle > s.maxDegreeRange then ANGLE_ERROR_BIT else 0)) |||
      (if s.channelNum < 0 ∨ s.channelNum ≥ NUM_MAESTRO_CHANNELS then CHANNEL_ERROR_BIT else 0) := by
  simp only [runChecks, checkMinUS_def, checkMaxUS_def, checkMinDegreeRange_def,
    checkMaxDegreeRange_def, checkMinAngle_def, checkMaxAngle_def, checkChannel_def]

/-- Each check either leaves the error mask alone or ORs one bit into it. -/
lemma checkChannel_errorCode (s : ServoState) :
    (checkChannel s).errorCode = s.errorCode ∨
      (checkChannel s).errorCode = s.errorCode ||| CHANNEL_ERROR_BIT := by
  unfold checkChannel
  split
  · exact Or.inr rfl
  · exact Or.inl rfl

lemma checkChannel_errorCode_of_invalid (s : ServoState)
    (h : s.channelNum < 0 ∨ s.channelNum ≥ NUM_MAESTRO_CHANNELS) :
    (checkChannel s).errorCode = s.errorCode ||| CHANNEL_ERROR_BIT := by
  unfold checkChannel
  rw [if_pos h]

lemma checkChannel_channelNum (s : ServoState) :
    (checkChannel s).channelNum = s.channelNum := by
  unfold checkChannel
  split <;> rfl

/-- `C3`.  The three-argument constructor forwards its first two arguments
as the pulse bounds (stored ×4) and leaves both the angle window and the
rated range at the default `0..180`, evaluated at the failing input
`SB_Servo(10, 170, 3)`: the supplied pair does not become the angle
window (the header documents the parameters as `minDegr`/`maxDegr`),
and the pulse range is not the default `500..2500`. -/
theorem C3_ctor_pair_is_pulse_bounds :
    (mkServoMinMaxUS 10 170 3 0).minUS = 40 ∧
    (mkServoMinMaxUS 10 170 3 0).maxUS = 680 ∧
    (mkServoMinMaxUS 10 170 3 0).minAngle = 0 ∧
    (mkServoMinMaxUS 10 170 3 0).maxAngle = 180 ∧
    (mkServoMinMaxUS 10 170 3 0).minDegreeRange = 0 ∧
    (mkServoMinMaxUS 10 170 3 0).maxDegreeRange = 180 := by
  refine ⟨?_, ?_, ?_, ?_, ?_, ?_⟩ <;> decide

/-- `C4`.  Constructing through the full constructor with
`pulseMax ≤ pulseMin` and all range, angle and channel parameters valid
always completes and leaves the error mask equal to exactly
`US_ERROR_BIT`. -/
theorem C4_pulse_error_bit_only (minimumUS maximumUS : ℤ) (rMin rMax aMin aMax : ℚ)
    (ch svn : ℤ)
    (hus : maximumUS ≤ minimumUS)
    (h1 : 0 ≤ rMin) (h2 : rMin ≤ rMax) (h3 : rMax ≤ 360)
    (h4 : rMin ≤ aMin) (h5 : aMin ≤ aMax) (h6 : aMax ≤ rMax)
    (h7 : 0 ≤ ch) (h8 : ch < NUM_MAESTRO_CHANNELS) :
    (mkServo minimumUS maximumUS rMin rMax aMin aMax ch svn).errorCode = US_ERROR_BIT := by
  have haMin0 : (0 : ℚ) ≤ aMin := le_trans h1 h4
  have haMax0 : (0 : ℚ) ≤ aMax := le_trans haMin0 h5
  have hmax : (4 * maximumUS < 0 ∨ 4 * maximumUS ≤ 4 * minimumUS) := Or.inr (by omega)
  have hr1 : ¬ (rMin < 0 ∨ rMin > rMax) := by
    push_neg
    exact ⟨h1, h2⟩
  have hr2 : ¬ (rMax > 360 ∨ rMax < rMin) := by
    push_neg
    exact ⟨h3, h2⟩
  have ha1 : ¬ (aMin < 0 ∨ aMin > aMax ∨ aMin < rMin) := by
    push_neg
    exact ⟨haMin0, h5, h4⟩
  have ha2 : ¬ (aMax < 0 ∨ aMax < aMin ∨ aMax > rMax) := by
    push_neg
    exact ⟨haMax0, h5, h6⟩
  have hch : ¬ (ch < 0 ∨ ch ≥ NUM_MAESTRO_CHANNELS) := by
    push_neg
    exact ⟨h7, h8⟩
  unfold mkServo
  rw [runChecks_errorCode]
  dsimp only
  rw [if_pos hmax, if_neg hr1, if_neg hr2, if_neg ha1, if_neg ha2, if_neg hch]
  by_cases hmin : 4 * minimumUS < 0 ∨ 4 * minimumUS > 4 * maximumUS
  · rw [if_pos hmin]
    decide
  · rw [if_neg hmin]
    decide

/-- Witness for `C4_pulse_error_bit_only` at
`SB_Servo(500, 400, 0, 180, 0, 180, 0)`. -/
theorem C4_pulse_error_bit_only_witness :
    (400 : ℤ) ≤ 500 ∧ (mkServo 500 400 0 180 0 180 0 0).errorCode = US_ERROR_BIT :=
  ⟨by decide,
    C4_pulse_error_bit_only 500 400 0 180 0 180 0 0 (by decide) (by decide) (by decide)
      (by decide) (by decide) (by decide) (by decide) (by decide) (by decide)⟩

/-- `C5`.  `rotateToDegrees` on a unit whose channel is outside
`[0, NUM_MAESTRO_CHANNELS)` issues zero gateway calls and leaves the
channel error bit set in the mask. -/
theorem C5_invalid_channel_rotate_noop (s : ServoState) (a : ℚ)
    (h : s.channelNum < 0 ∨ s.channelNum ≥ NUM_MAESTRO_CHANNELS) :
    (rotateToDegrees s a).2 = [] ∧
      (rotateToDegrees s a).1.errorCode &&& CHANNEL_ERROR_BIT ≠ 0 := by
  simp only [rotateToDegrees]
  by_cases h1 : a > s.maxAngle
  · rw [if_pos h1]
    have hc : (checkChannel
        { s with errorCode := s.errorCode ||| ROTATE_TO_OVER_ERROR_BIT }).errorCode &&&
        CHANNEL_ERROR_BIT ≠ 0 := by
      rw [checkChannel_errorCode_of_invalid
        { s with errorCode := s.errorCode ||| ROTATE_TO_OVER_ERROR_BIT } h]
      exact channel_bit_of_lor _
    rw [if_pos hc]
    exact ⟨rfl, hc⟩
  · rw [if_neg h1]
    by_cases h2 : a < s.minAngle
    · rw [if_pos h2]
      have hc : (checkChannel
          { s with errorCode := s.errorCode ||| ROTATE_TO_UNDER_ERROR_BIT }).errorCode &&&
          CHANNEL_ERROR_BIT ≠ 0 := by
        rw [checkChannel_errorCode_of_invalid
          { s with errorCode := s.errorCode ||| ROTATE_TO_UNDER_ERROR_BIT } h]
        exact channel_bit_of_lor _
      rw [if_pos hc]
      exact ⟨rfl, hc⟩
    · rw [if_neg h2]
      have hc : (checkChannel s).errorCode &&& CHANNEL_ERROR_BIT ≠ 0 := by
        rw [checkChannel_errorCode_of_invalid s h]
        exact channel_bit_of_lor _
      rw [if_pos hc]
      exact ⟨rfl, hc⟩

/-- Witness for `C5_invalid_channel_rotate_noop` on the channel-`9` unit. -/
theorem C5_invalid_channel_rotate_noop_witness :
    ((exampleClearedBadChannel.channelNum < 0 ∨
        exampleClearedBadChannel.channelNum ≥ NUM_MAESTRO_CHANNELS) ∧
      (rotateToDegrees exampleClearedBadChannel 90).2 = [] ∧
      (rotateToDegrees exampleClearedBadChannel 90).1.errorCode &&&
        CHANNEL_ERROR_BIT ≠ 0) :=
  ⟨by decide, C5_invalid_channel_rotate_noop exampleClearedBadChannel 90 (by decide)⟩

/-- `C6` counterexample.  A unit whose channel `9` is invalid but whose
error mask was cleared: `getCurrentDegrees` neither returns `-1` nor
refrains from the gateway `getPosition` call, so "channel invalid" alone
does not imply the `-1` sentinel. -/
theorem C6_invalid_channel_counterexample :
    (exampleClearedBadChannel.channelNum < 0 ∨
        exampleClearedBadChannel.channelNum ≥ NUM_MAESTRO_CHANNELS) ∧
      (getCurrentDegrees exampleClearedBadChannel 6000).2.1 ≠ -1 ∧
      (getCurrentDegrees exampleClearedBadChannel 6000).2.2 ≠ [] := by
  refine ⟨by decide, ?_, ?_⟩
  · norm_num [getCurrentDegrees, usToDegrees, exampleClearedBadChannel, CHANNEL_ERROR_BIT]
  · norm_num [getCurrentDegrees, exampleClearedBadChannel, CHANNEL_ERROR_BIT]

/-- `C6` amended.  On every unit state whose channel error bit is set in
the mask (as construction with an invalid channel leaves it, until the
mask is cleared), `getCurrentDegrees` returns exactly `-1` and issues no
gateway `getPosition` call. -/
theorem C6_sentinel_of_channel_bit (s : ServoState) (pos : ℤ)
    (h : s.errorCode &&& CHANNEL_ERROR_BIT ≠ 0) :
    (getCurrentDegrees s pos).2.1 = -1 ∧ (getCurrentDegrees s pos).2.2 = [] := by
  unfold getCurrentDegrees
  rw [if_pos h]
  exact ⟨rfl, rfl⟩

/-- Witness for `C6_sentinel_of_channel_bit` on a freshly constructed
channel-`9` unit. -/
theorem C6_sentinel_of_channel_bit_witness :
    ((mkServo 500 2500 0 180 0 180 9 0).errorCode &&& CHANNEL_ERROR_BIT ≠ 0) ∧
      (getCurrentDegrees (mkServo 500 2500 0 180 0 180 9 0) 6000).2.1 = -1 ∧
      (getCurrentDegrees (mkServo 500 2500 0 180 0 180 9 0) 6000).2.2 = [] :=
  ⟨by decide, C6_sentinel_of_channel_bit (mkServo 500 2500 0 180 0 180 9 0) 6000 (by decide)⟩

/-- `C2` counterexample.  On the unit with the inverted safe window
`minAngle = 10 > maxAngle = 5` (channel `0`, clear mask), the request `7`
exceeds `maxAngle`, yet it does not command the same target as
`rotateToDegrees(maxAngle)`; and although `7 < minAngle`, the rotate-under
bit is not set (the over branch wins), so both halves of the claim fail
without a window-ordering hypothesis. -/
theorem C2_clamp_counterexample :
    (7 : ℚ) > exampleInvertedWindow.maxAngle ∧
    (7 : ℚ) < exampleInvertedWindow.minAngle ∧
    (rotateToDegrees exampleInvertedWindow 7).2 ≠
      (rotateToDegrees exampleInvertedWindow exampleInvertedWindow.maxAngle).2 ∧
    (rotateToDegrees exampleInvertedWindow 7).1.errorCode &&&
      ROTATE_TO_UNDER_ERROR_BIT = 0 := by
  have e1 : (rotateToDegrees exampleInvertedWindow 7).2 = [MaestroCall.setTarget 0 2222] := by
    simp only [rotateToDegrees]
    norm_num [exampleInvertedWindow, degToUS, cIntCast, checkChannel,
      CHANNEL_ERROR_BIT, NUM_MAESTRO_CHANNELS, ROTATE_TO_OVER_ERROR_BIT,
      ROTATE_TO_UNDER_ERROR_BIT]
    decide
  have e2 : (rotateToDegrees exampleInvertedWindow exampleInvertedWindow.maxAngle).2 =
      [MaestroCall.setTarget 0 2444] := by
    simp only [rotateToDegrees]
    norm_num [exampleInvertedWindow, degToUS, cIntCast, checkChannel,
      CHANNEL_ERROR_BIT, NUM_MAESTRO_CHANNELS, ROTATE_TO_OVER_ERROR_BIT,
      ROTATE_TO_UNDER_ERROR_BIT]
    decide
  have e3 : (rotateToDegrees exampleInvertedWindow 7).1.errorCode =
      ROTATE_TO_OVER_ERROR_BIT := by
    simp only [rotateToDegrees]
    norm_num [exampleInvertedWindow, checkChannel, CHANNEL_ERROR_BIT,
      NUM_MAESTRO_CHANNELS, ROTATE_TO_OVER_ERROR_BIT, ROTATE_TO_UNDER_ERROR_BIT]
    decide
  refine ⟨by decide, by decide, ?_, ?_⟩
  · rw [e1, e2]
    decide
  · rw [e3]
    decide

/-- `C2` amended.  On every unit whose safe window is well ordered
(`minAngle ≤ maxAngle`), a request above `maxAngle` commands exactly the
gateway calls of `rotateToDegrees(maxAngle)` and sets the rotate-over
bit, and a request below `minAngle` commands exactly the gateway calls of
`rotateToDegrees(minAngle)` and sets the rotate-under bit. -/
theorem C2_clamp_matches_bound (s : ServoState) (a : ℚ)
    (hwin : s.minAngle ≤ s.maxAngle) :
    (a > s.maxAngle →
      (rotateToDegrees s a).2 = (rotateToDegrees s s.maxAngle).2 ∧
      (rotateToDegrees s a).1.errorCode &&& ROTATE_TO_OVER_ERROR_BIT ≠ 0) ∧
    (a < s.minAngle →
      (rotateToDegrees s a).2 = (rotateToDegrees s s.minAngle).2 ∧
      (rotateToDegrees s a).1.errorCode &&& ROTATE_TO_UNDER_ERROR_BIT ≠ 0) := by
  constructor
  · intro h
    have hnot1 : ¬ (s.maxAngle > s.maxAngle) := gt_irrefl _
    have hnot2 : ¬ (s.maxAngle < s.minAngle) := not_lt.mpr hwin
    simp only [rotateToDegrees, h, hnot1, hnot2, ite_true, ite_false]
    rw [checkChannel_def { s with errorCode := s.errorCode ||| ROTATE_TO_OVER_ERROR_BIT },
      checkChannel_def s]
    dsimp only
    by_cases hch : s.channelNum < 0 ∨ s.channelNum ≥ NUM_MAESTRO_CHANNELS
    · rw [if_pos hch]
      have t1 : ((s.errorCode ||| ROTATE_TO_OVER_ERROR_BIT) ||| CHANNEL_ERROR_BIT) &&&
          CHANNEL_ERROR_BIT ≠ 0 := channel_bit_of_lor _
      have t2 : (s.errorCode ||| CHANNEL_ERROR_BIT) &&& CHANNEL_ERROR_BIT ≠ 0 :=
        channel_bit_of_lor _
      rw [if_pos t1, if_pos t2]
      refine ⟨rfl, ?_⟩
      exact and_ne_zero_of_testBit 5
        (testBit_lor_left _ 5 (testBit_lor_right _ 5 (by decide))) (by decide)
    · rw [if_neg hch]
      simp only [Nat.or_zero]
      have hcond : (s.errorCode ||| ROTATE_TO_OVER_ERROR_BIT) &&& CHANNEL_ERROR_BIT =
          s.errorCode &&& CHANNEL_ERROR_BIT :=
        lor_and_of_and_zero s.errorCode ROTATE_TO_OVER_ERROR_BIT CHANNEL_ERROR_BIT (by decide)
      by_cases hc : s.errorCode &&& CHANNEL_ERROR_BIT ≠ 0
      · rw [if_pos (by rw [hcond]; exact hc), if_pos hc]
        refine ⟨rfl, ?_⟩
        exact and_ne_zero_of_testBit 5 (testBit_lor_right _ 5 (by decide)) (by decide)
      · rw [if_neg (by rw [hcond]; exact hc), if_neg hc]
        refine ⟨rfl, ?_⟩
        exact and_ne_zero_of_testBit 5 (testBit_lor_right _ 5 (by decide)) (by decide)
  · intro h
    have hnot1 : ¬ (a > s.maxAngle) := not_lt.mpr (le_of_lt (lt_of_lt_of_le h hwin))
    have hnot2 : ¬ (s.minAngle > s.maxAngle) := not_lt.mpr hwin
    have hnot3 : ¬ (s.minAngle < s.minAngle) := lt_irrefl _
    simp only [rotateToDegrees, h, hnot1, hnot2, hnot3, ite_true, ite_false]
    rw [checkChannel_def { s with errorCode := s.errorCode ||| ROTATE_TO_UNDER_ERROR_BIT },
      checkChannel_def s]
    dsimp only
    by_cases hch : s.channelNum < 0 ∨ s.channelNum ≥ NUM_MAESTRO_CHANNELS
    · rw [if_pos hch]
      have t1 : ((s.errorCode ||| ROTATE_TO_UNDER_ERROR_BIT) ||| CHANNEL_ERROR_BIT) &&&
          CHANNEL_ERROR_BIT ≠ 0 := channel_bit_of_lor _
      have t2 : (s.errorCode ||| CHANNEL_ERROR_BIT) &&& CHANNEL_ERROR_BIT ≠ 0 :=
        channel_bit_of_lor _
      rw [if_pos t1, if_pos t2]
      refine ⟨rfl, ?_⟩
      exact and_ne_zero_of_testBit 4
        (testBit_lor_left _ 4 (testBit_lor_right _ 4 (by decide))) (by decide)
    · rw [if_neg hch]
      simp only [Nat.or_zero]
      have hcond : (s.errorCode ||| ROTATE_TO_UNDER_ERROR_BIT) &&& CHANNEL_ERROR_BIT =
          s.errorCode &&& CHANNEL_ERROR_BIT :=
        lor_and_of_and_zero s.errorCode ROTATE_TO_UNDER_ERROR_BIT CHANNEL_ERROR_BIT (by decide)
      by_cases hc : s.errorCode &&& CHANNEL_ERROR_BIT ≠ 0
      · rw [if_pos (by rw [hcond]; exact hc), if_pos hc]
        refine ⟨rfl, ?_⟩
        exact and_ne_zero_of_testBit 4 (testBit_lor_right _ 4 (by decide)) (by decide)
      · rw [if_neg (by rw [hcond]; exact hc), if_neg hc]
        refine ⟨rfl, ?_⟩
        exact and_ne_zero_of_testBit 4 (testBit_lor_right _ 4 (by decide)) (by decide)

/-- Witness for `C2_clamp_matches_bound` on the default unit at request `200 > 180`. -/
theorem C2_clamp_matches_bound_witness :
    exampleDefaultServo.minAngle ≤ exampleDefaultServo.maxAngle ∧
    ((200 : ℚ) > exampleDefaultServo.maxAngle →
      (rotateToDegrees exampleDefaultServo 200).2 =
        (rotateToDegrees exampleDefaultServo exampleDefaultServo.maxAngle).2 ∧
      (rotateToDegrees exampleDefaultServo 200).1.errorCode &&&
        ROTATE_TO_OVER_ERROR_BIT ≠ 0) :=
  ⟨by decide, (C2_clamp_matches_bound exampleDefaultServo 200 (by decide)).1⟩

/-- `C8`.  The unit built as `SB_Servo(500, 2500, 0, 180, 0, 180, 0)` stores
the ×4-scaled pulse bounds `2000` and `10000`, and `rotateToDegrees(90)`
issues exactly one `setTarget(0, 6000)` call, `6000` being the midpoint
`(minUS + maxUS) / 2` of the stored bounds. -/
theorem C8_midpoint_scenario :
    exampleDefaultServo.minUS = 2000 ∧
    exampleDefaultServo.maxUS = 10000 ∧
    (rotateToDegrees exampleDefaultServo 90).2 =
      [MaestroCall.setTarget 0 ((exampleDefaultServo.minUS + exampleDefaultServo.maxUS) / 2)] ∧
    (exampleDefaultServo.minUS + exampleDefaultServo.maxUS) / 2 = 6000 := by
  have h1 : exampleDefaultServo =
      { minUS := 2000, maxUS := 10000, minDegreeRange := 0, maxDegreeRange := 180,
        minAngle := 0, maxAngle := 180, channelNum := 0, servoNumber := 0,
        errorCode := 0 } := by decide
  refine ⟨by decide, by decide, ?_, by decide⟩
  rw [h1]
  simp only [rotateToDegrees]
  norm_num [degToUS, cIntCast, checkChannel, CHANNEL_ERROR_BIT, NUM_MAESTRO_CHANNELS]

lemma checkChannel_testBit_mono (s : ServoState) (i : ℕ)
    (h : s.errorCode.testBit i = true) :
    (checkChannel s).errorCode.testBit i = true := by
  rcases checkChannel_errorCode s with hc | hc <;> rw [hc]
  · exact h
  · exact testBit_lor_left _ _ h

lemma runChecks_testBit_mono (s : ServoState) (i : ℕ)
    (h : s.errorCode.testBit i = true) :
    (runChecks s).errorCode.testBit i = true := by
  rw [runChecks_errorCode]
  exact testBit_lor_left _ _ (testBit_lor_left _ _ (testBit_lor_left _ _
    (testBit_lor_left _ _ (testBit_lor_left _ _ (testBit_lor_left _ _
      (testBit_lor_left _ _ h))))))

lemma rotateToDegrees_errorCode_mono (s : ServoState) (a : ℚ) (i : ℕ)
    (h : s.errorCode.testBit i = true) :
    (rotateToDegrees s a).1.errorCode.testBit i = true := by
  simp only [rotateToDegrees]
  by_cases h1 : a > s.maxAngle
  · simp only [h1, ite_true]
    split
    · exact checkChannel_testBit_mono _ _ (testBit_lor_left _ _ h)
    · exact checkChannel_testBit_mono _ _ (testBit_lor_left _ _ h)
  · simp only [h1, ite_false]
    by_cases h2 : a < s.minAngle
    · simp only [h2, ite_true]
      split
      · exact checkChannel_testBit_mono _ _ (testBit_lor_left _ _ h)
      · exact checkChannel_testBit_mono _ _ (testBit_lor_left _ _ h)
    · simp only [h2, ite_false]
      split
      · exact checkChannel_testBit_mono _ _ h
      · exact checkChannel_testBit_mono _ _ h

lemma getCurrentDegrees_fst (s : ServoState) (pos : ℤ) :
    (getCurrentDegrees s pos).1 = s := by
  unfold getCurrentDegrees
  split <;> rfl

/-- `C9`.  The error mask only accumulates across the runtime operations
and the constructor checks: every bit set before `rotateToDegrees`,
`rotateBy`, `getCurrentDegrees` or the seven validation checks is still
set afterwards; and `clearErrorCode` resets the mask to `0`, so
`getErrorCode` right after it returns `0`. -/
theorem C9_error_mask_accumulates :
    (∀ (s : ServoState) (a : ℚ) (i : ℕ), s.errorCode.testBit i = true →
        (rotateToDegrees s a).1.errorCode.testBit i = true) ∧
    (∀ (s : ServoState) (d : ℚ) (pos : ℤ) (i : ℕ), s.errorCode.testBit i = true →
        (rotateBy s d pos).1.errorCode.testBit i = true) ∧
    (∀ (s : ServoState) (pos : ℤ) (i : ℕ), s.errorCode.testBit i = true →
        (getCurrentDegrees s pos).1.errorCode.testBit i = true) ∧
    (∀ (s : ServoState) (i : ℕ), s.errorCode.testBit i = true →
        (runChecks s).errorCode.testBit i = true) ∧
    (∀ s : ServoState, (clearErrorCode s).errorCode = 0 ∧
        getErrorCode (clearErrorCode s) = 0) := by
  refine ⟨rotateToDegrees_errorCode_mono, ?_, ?_, runChecks_testBit_mono, ?_⟩
  · intro s d pos i h
    simp only [rotateBy]
    rw [getCurrentDegrees_fst]
    exact rotateToDegrees_errorCode_mono _ _ _ h
  · intro s pos i h
    rw [getCurrentDegrees_fst]
    exact h
  · intro s
    exact ⟨rfl, rfl⟩

/-- Witness for `C9_error_mask_accumulates` on a unit carrying the range
bit (bit `1`). -/
theorem C9_error_mask_accumulates_witness :
    exampleMaskedServo.errorCode.testBit 1 = true ∧
    (rotateToDegrees exampleMaskedServo 90).1.errorCode.testBit 1 = true ∧
    (rotateBy exampleMaskedServo 5 6000).1.errorCode.testBit 1 = true ∧
    (getCurrentDegrees exampleMaskedServo 6000).1.errorCode.testBit 1 = true ∧
    (runChecks exampleMaskedServo).errorCode.testBit 1 = true ∧
    (clearErrorCode exampleMaskedServo).errorCode = 0 ∧
    getErrorCode (clearErrorCode exampleMaskedServo) = 0 :=
  ⟨by decide,
    C9_error_mask_accumulates.1 exampleMaskedServo 90 1 (by decide),
    C9_error_mask_accumulates.2.1 exampleMaskedServo 5 6000 1 (by decide),
    C9_error_mask_accumulates.2.2.1 exampleMaskedServo 6000 1 (by decide),
    C9_error_mask_accumulates.2.2.2.1 exampleMaskedServo 1 (by decide),
    (C9_error_mask_accumulates.2.2.2.2 exampleMaskedServo).1,
    (C9_error_mask_accumulates.2.2.2.2 exampleMaskedServo).2⟩

/-- Truncation toward zero moves a value by at most one. -/
lemma abs_cIntCast_sub_le (q : ℚ) : |(cIntCast q : ℚ) - q| ≤ 1 := by
  unfold cIntCast
  split
  · rw [abs_sub_comm, abs_of_nonneg (sub_nonneg.mpr (Int.floor_le q))]
    have hlt := Int.sub_one_lt_floor q
    linarith
  · rw [abs_of_nonneg (sub_nonneg.mpr (Int.le_ceil q))]
    have hlt := Int.ceil_lt_add_one q
    linarith

/-- `C1` counterexample.  On a calibration that passes every constructor
check but has `minDegreeRange = 90`, the round trip at the legal angle
`90` returns `180`: it is off by the full `90` degrees, far beyond the
one-pulse-unit rounding tolerance `maxDegreeRange / (maxUS - minUS)`. -/
theorem C1_roundtrip_counterexample :
    exampleShiftedRange.minUS < exampleShiftedRange.maxUS ∧
    0 < exampleShiftedRange.maxDegreeRange ∧
    exampleShiftedRange.minAngle ≤ 90 ∧ (90 : ℚ) ≤ exampleShiftedRange.maxAngle ∧
    usToDegrees exampleShiftedRange (degToUS exampleShiftedRange 90) = 180 ∧
    ¬ (|usToDegrees exampleShiftedRange (degToUS exampleShiftedRange 90) - 90| ≤
        exampleShiftedRange.maxDegreeRange /
          ((exampleShiftedRange.maxUS : ℚ) - (exampleShiftedRange.minUS : ℚ))) := by
  have hval : usToDegrees exampleShiftedRange (degToUS exampleShiftedRange 90) = 180 := by
    norm_num [usToDegrees, degToUS, cIntCast, exampleShiftedRange]
  refine ⟨by decide, by decide, by decide, by decide, hval, ?_⟩
  rw [hval]
  norm_num [exampleShiftedRange]

/-- `C1` amended.  For every unit with `minUS < maxUS`,
`maxDegreeRange > 0` and `minDegreeRange = 0`, and every angle `a` in the
safe window, `usToDegrees (degToUS a)` differs from `a` by at most the
degree equivalent of one pulse unit, `maxDegreeRange / (maxUS - minUS)`
(the `int` truncation in `degToUS` is the only loss). -/
theorem C1_roundtrip_tolerance (s : ServoState) (a : ℚ)
    (hus : s.minUS < s.maxUS) (hrange : 0 < s.maxDegreeRange)
    (hmin0 : s.minDegreeRange = 0)
    (ha1 : s.minAngle ≤ a) (ha2 : a ≤ s.maxAngle) :
    |usToDegrees s (degToUS s a) - a| ≤
      s.maxDegreeRange / ((s.maxUS : ℚ) - (s.minUS : ℚ)) := by
  have hU : (0 : ℚ) < (s.maxUS : ℚ) - (s.minUS : ℚ) := by
    have hcast : (s.minUS : ℚ) < (s.maxUS : ℚ) := by exact_mod_cast hus
    linarith
  have hUne : ((s.maxUS : ℚ) - (s.minUS : ℚ)) ≠ 0 := ne_of_gt hU
  have hDne : s.maxDegreeRange ≠ 0 := ne_of_gt hrange
  set q : ℚ := (((s.maxUS : ℚ) - (s.minUS : ℚ)) / s.maxDegreeRange) * a + (s.minUS : ℚ)
    with hq
  have key : usToDegrees s (degToUS s a) - a =
      (s.maxDegreeRange / ((s.maxUS : ℚ) - (s.minUS : ℚ))) * ((cIntCast q : ℚ) - q) := by
    unfold usToDegrees degToUS
    rw [hmin0, ← hq, hq]
    field_simp
    ring
  rw [key, abs_mul,
    abs_of_pos (div_pos hrange hU)]
  calc s.maxDegreeRange / ((s.maxUS : ℚ) - (s.minUS : ℚ)) * |(cIntCast q : ℚ) - q| ≤
        s.maxDegreeRange / ((s.maxUS : ℚ) - (s.minUS : ℚ)) * 1 :=
        mul_le_mul_of_nonneg_left (abs_cIntCast_sub_le q) (le_of_lt (div_pos hrange hU))
    _ = s.maxDegreeRange / ((s.maxUS : ℚ) - (s.minUS : ℚ)) := mul_one _

/-- Witness for `C1_roundtrip_tolerance` on the default unit at `a = 90`. -/
theorem C1_roundtrip_tolerance_witness :
    exampleDefaultServo.minUS < exampleDefaultServo.maxUS ∧
    0 < exampleDefaultServo.maxDegreeRange ∧
    exampleDefaultServo.minDegreeRange = 0 ∧
    exampleDefaultServo.minAngle ≤ 90 ∧ (90 : ℚ) ≤ exampleDefaultServo.maxAngle ∧
    |usToDegrees exampleDefaultServo (degToUS exampleDefaultServo 90) - 90| ≤
      exampleDefaultServo.maxDegreeRange /
        ((exampleDefaultServo.maxUS : ℚ) - (exampleDefaultServo.minUS : ℚ)) :=
  ⟨by decide, by decide, by decide, by decide, by decide,
    C1_roundtrip_tolerance exampleDefaultServo 90 (by decide) (by decide) (by decide)
      (by decide) (by decide)⟩

lemma buildTargets_cons (s : ServoState) (ss : List ServoState) (d : ℚ) (ds : List ℚ)
    (i : ℕ) :
    buildTargets (s :: ss) (d :: ds) i =
      if i < 8 then
        Option.map (fun rest => toUInt16 (degToUS s d) :: rest) (buildTargets ss ds (i + 1))
      else none := by
  simp only [buildTargets]
  split
  · cases buildTargets ss ds (i + 1) <;> rfl
  · rfl

lemma buildTargets_eq (ss : List ServoState) (ds : List ℚ) (i : ℕ)
    (hlen : ds.length ≤ ss.length) (hbound : ds.length + i ≤ 8) :
    buildTargets ss ds i =
      some (List.zipWith (fun s d => toUInt16 (degToUS s d)) ss ds) := by
  induction ds generalizing ss i with
  | nil => cases ss <;> rfl
  | cons d ds ih =>
    cases ss with
    | nil => simp at hlen
    | cons s ss2 =>
      rw [buildTargets_cons, if_pos (by simp at hbound; omega)]
      rw [ih ss2 (i + 1) (by simpa using hlen) (by simp at hbound ⊢; omega)]
      rfl

lemma buildTargets_isSome_iff (ss : List ServoState) (ds : List ℚ) (i : ℕ) :
    (buildTargets ss ds i).isSome = true ↔
      (ds.length ≤ ss.length ∧ (ds.length = 0 ∨ ds.length + i ≤ 8)) := by
  induction ds generalizing ss i with
  | nil =>
    cases ss <;> simp [buildTargets]
  | cons d ds ih =>
    cases ss with
    | nil =>
      rw [show buildTargets ([] : List ServoState) (d :: ds) i = none from rfl]
      simp
    | cons s ss2 =>
      rw [buildTargets_cons]
      by_cases hi : i < 8
      · rw [if_pos hi]
        simp only [Option.isSome_map']
        rw [ih ss2 (i + 1)]
        simp only [List.length_cons]
        omega
      · rw [if_neg hi]
        simp only [Option.isSome_none, Bool.false_eq_true, List.length_cons, false_iff]
        omega

lemma traceList_mem (l : List ServoState) (i : ℕ) (h1 : i < l.length)
    (h2 : i + 1 < l.length)
    (hmis : (l.get ⟨i, h1⟩).channelNum + 1 ≠ (l.get ⟨i + 1, h2⟩).channelNum) :
    (l.get ⟨i, h1⟩).servoNumber ∈ traceList l := by
  induction l generalizing i with
  | nil => simp at h1
  | cons a rest ih =>
    cases rest with
    | nil => simp at h2
    | cons b rest2 =>
      cases i with
      | zero =>
        simp only [List.get] at hmis ⊢
        simp only [traceList]
        rw [if_pos hmis]
        simp
      | succ j =>
        simp only [List.get] at hmis ⊢
        simp only [traceList]
        refine List.mem_append.mpr (Or.inr ?_)
        exact ih j (by simpa using Nat.lt_of_succ_lt_succ h1)
          (by simpa using Nat.lt_of_succ_lt_succ h2) hmis

/-- `C10`.  In the total embedding where every vector/array access is an
`Option`, `setMultipleTargets` performs all its accesses in bounds exactly
under the unstated precondition `1 ≤ servos.size()`,
`degrees.size() ≤ servos.size()` and `degrees.size() ≤ 8`: an empty batch
underflows the unsigned contiguity bound and reads `servos[0]`, more
degrees than servos reads `servos[i]` past the end, and more than
`NUM_MAESTRO_CHANNELS` degrees writes past the fixed `targets` array. -/
theorem C10_inbounds_iff (servos : List ServoState) (degrees : List ℚ) :
    (setMultipleTargets servos degrees).isSome = true ↔
      (1 ≤ servos.length ∧ degrees.length ≤ servos.length ∧
        degrees.length ≤ 8) := by
  cases servos with
  | nil => simp [setMultipleTargets, contigScan]
  | cons s ss =>
    have hiff := buildTargets_isSome_iff (s :: ss) degrees 0
    cases hb : buildTargets (s :: ss) degrees 0 with
    | none =>
      rw [hb] at hiff
      simp only [setMultipleTargets, contigScan, hb]
      simp at hiff ⊢
      intro h
      exact (hiff h).2
    | some targets =>
      rw [hb] at hiff
      simp only [setMultipleTargets, contigScan, hb, List.head?]
      simp at hiff ⊢
      refine ⟨hiff.1, ?_⟩
      rcases hiff.2 with h | h
      · simp [h]
      · exact h

/-- `C7` counterexample.  A nine-unit index-aligned batch with a
contiguity violation (all channels `0`): the ninth `targets[i]` write is
past the fixed eight-entry array, so in the total embedding the operation
fails out of bounds (`none`) and no well-defined bulk
`setMultiTarget` call is issued, contradicting the claim over every
batch. -/
theorem C7_oversized_batch_counterexample :
    (List.replicate 9 exampleDefaultServo).length = (List.replicate 9 (90 : ℚ)).length ∧
    ((List.replicate 9 exampleDefaultServo).get ⟨0, by decide⟩).channelNum + 1 ≠
      ((List.replicate 9 exampleDefaultServo).get ⟨1, by decide⟩).channelNum ∧
    setMultipleTargets (List.replicate 9 exampleDefaultServo)
      (List.replicate 9 (90 : ℚ)) = none := by
  refine ⟨by decide, by decide, by decide⟩

/-- `C7` amended.  For every index-aligned batch of at most
`NUM_MAESTRO_CHANNELS` units with a contiguity violation at position `i`,
`setMultipleTargets` records the offending unit's servo number in the
trace list and still issues exactly one
`setMultiTarget(servos.size(), servos[0].channelNum, targets)` call, each
target computed through its own unit's calibration. -/
theorem C7_noncontiguous_still_bulk (servos : List ServoState) (degrees : List ℚ)
    (i : ℕ) (hlen : degrees.length = servos.length) (hn : servos.length ≤ 8)
    (hi1 : i < servos.length) (hi2 : i + 1 < servos.length)
    (hmis : (servos.get ⟨i, hi1⟩).channelNum + 1 ≠
      (servos.get ⟨i + 1, hi2⟩).channelNum) :
    ∃ s0, servos.head? = some s0 ∧
      setMultipleTargets servos degrees =
        some (traceList servos,
          MaestroCall.setMultiTarget servos.length s0.channelNum
            (List.zipWith (fun s d => toUInt16 (degToUS s d)) servos degrees)) ∧
      (servos.get ⟨i, hi1⟩).servoNumber ∈ traceList servos := by
  cases servos with
  | nil => simp at hi2
  | cons s ss =>
    refine ⟨s, rfl, ?_, traceList_mem _ i hi1 hi2 hmis⟩
    simp only [setMultipleTargets, contigScan]
    rw [buildTargets_eq (s :: ss) degrees 0 (le_of_eq hlen) (by omega)]
    rfl

/-- Witness for `C7_noncontiguous_still_bulk` on the channel `{2, 4, 5}`
fleet at angles `{0, 90, 180}`, with the violation at index `0`. -/
theorem C7_noncontiguous_still_bulk_witness :
    (exampleAngles.length = exampleFleet.length ∧ exampleFleet.length ≤ 8 ∧
      (exampleFleet.get ⟨0, by decide⟩).channelNum + 1 ≠
        (exampleFleet.get ⟨1, by decide⟩).channelNum) ∧
    (∃ s0, exampleFleet.head? = some s0 ∧
      setMultipleTargets exampleFleet exampleAngles =
        some (traceList exampleFleet,
          MaestroCall.setMultiTarget exampleFleet.length s0.channelNum
            (List.zipWith (fun s d => toUInt16 (degToUS s d)) exampleFleet exampleAngles)) ∧
      (exampleFleet.get ⟨0, by decide⟩).servoNumber ∈ traceList exampleFleet) :=
  ⟨⟨by decide, by decide, by decide⟩,
    C7_noncontiguous_still_bulk exampleFleet exampleAngles 0 (by decide) (by decide)
      (by decide) (by decide) (by decide)⟩

end SBServo
